import Mathlib

/-
Verification of the MicroPython QMC5883L magnetometer driver
(`micropython_qmc5883l/qmc5883l.py`) against its specification.

The driver is embedded shallowly: the I2C device is a small register file
(`DevState`), the driver instance carries the device plus its derived
`resolution` attribute, and every public operation is a pure function that
returns the new state together with the list of bus transactions it issued.
The bit-field accessor `CBits` and the multi-byte accessor `RegisterStruct`
live in `micropython_qmc5883l/i2c_helpers.py`, which is not part of the
sources at hand; their behaviour is modelled from the specification of the
register accessor primitives.
-/

namespace QMC5883L

set_option maxRecDepth 8000

/-- Register address of the WHOAMI (device identity) register, `0x0D`. -/
def REG_WHOAMI : Nat := 0x0D

/-- Register address of the SET/RESET register, `0x0B`. -/
def REG_SET_RESET : Nat := 0x0B

/-- Register address of the shared operation-mode register, `0x09`. -/
def REG_OPERATION_MODE : Nat := 0x09

/-- Register address of the status register, `0x06`. -/
def REG_STATUS : Nat := 0x06

def OVERSAMPLE_64 : Nat := 0b11

def OVERSAMPLE_128 : Nat := 0b10

def OVERSAMPLE_256 : Nat := 0b01

def OVERSAMPLE_512 : Nat := 0b00

/-- Legal oversample raw codes, as listed in the driver source. -/
def oversample_values : List Nat :=
  [OVERSAMPLE_64, OVERSAMPLE_128, OVERSAMPLE_256, OVERSAMPLE_512]

def FIELDRANGE_2G : Nat := 0b00

def FIELDRANGE_8G : Nat := 0b01

/-- Legal field-range raw codes. -/
def field_range_values : List Nat := [FIELDRANGE_2G, FIELDRANGE_8G]

def OUTPUT_DATA_RATE_10 : Nat := 0b00

def OUTPUT_DATA_RATE_50 : Nat := 0b01

def OUTPUT_DATA_RATE_100 : Nat := 0b10

def OUTPUT_DATA_RATE_200 : Nat := 0b11

/-- Legal output-data-rate raw codes. -/
def data_rate_values : List Nat :=
  [OUTPUT_DATA_RATE_10, OUTPUT_DATA_RATE_50, OUTPUT_DATA_RATE_100, OUTPUT_DATA_RATE_200]

def MODE_STANDBY : Nat := 0b00

def MODE_CONTINUOUS : Nat := 0b01

/-- Legal mode raw codes. -/
def mode_values : List Nat := [ MODE_STANDBY, MODE_CONTINUOUS]

/-- Modelled from the spec: the get half of the bit-field accessor `CBits`
from `i2c_helpers.py` (not among the sources): read the register byte, shift
right by the bit offset and mask down to the field width. -/
def cbits_get (width offset byte : Nat) : Nat :=
  (byte >>> offset) % 2 ^ width

/-- Modelled from the spec: the set half of the bit-field accessor `CBits`
from `i2c_helpers.py` (not among the sources): clear the target bits of the
current byte via the mask, then OR in the new value shifted into place. -/
def cbits_set (width offset byte value : Nat) : Nat :=
  (byte &&& (255 ^^^ ((2 ^ width - 1) <<< offset))) ||| (value <<< offset)

/-- A bus transaction: a read of `len` bytes at a register, or a write of a
byte string to a register. -/
inductive Tx where
  | read : Nat → Nat → Tx
  | write : Nat → List Nat → Tx
deriving DecidableEq

/-- The state of the simulated QMC5883L device: the operation-mode register
byte at `0x09`, the 16-bit identity value read at `0x0D`, and the raw bytes
of the measurement block starting at `0x00`. -/
structure DevState where
  conf : Nat
  whoami : Nat
  meas : List Nat
deriving DecidableEq

/-- The driver instance: the device it talks to plus the `resolution`
attribute.  In the Python class the attribute does not exist until the
field-range setter first assigns it; the model holds 0 until then. -/
structure Driver where
  dev : DevState
  resolution : Nat
deriving DecidableEq

/-- `QMC5883L.oversample` getter: decode the 2-bit field at offset 6 through
the four-element name tuple.  `none` models an IndexError. -/
def oversample_get (s : Driver) : Option String :=
  ["OVERSAMPLE_512", "OVERSAMPLE_256", "OVERSAMPLE_128", "OVERSAMPLE_64"].get?
    (cbits_get 2 6 s.dev.conf)

/-- `QMC5883L.oversample` setter: reject values outside the enumeration
before touching anything, otherwise read-modify-write bits 7:6 of `0x09`. -/
def oversample_set (s : Driver) (value : Nat) : Driver × Except String Unit × List Tx :=
  if value ∉ oversample_values then
    (s, .error "Value must be a valid oversample setting", [])
  else
    ({ s with dev := { s.dev with conf := cbits_set 2 6 s.dev.conf value } }, .ok (),
     [Tx.read REG_OPERATION_MODE 1,
      Tx.write REG_OPERATION_MODE [cbits_set 2 6 s.dev.conf value]])

/-- `QMC5883L.field_range` getter: decode the 2-bit field at offset 4 through
the two-element name tuple.  `none` models an IndexError. -/
def field_range_get (s : Driver) : Option String :=
  ["FIELDRANGE_2G", "FIELDRANGE_8G"].get? (cbits_get 2 4 s.dev.conf)

/-- A micro-step of the field-range setter, recording the order in which the
setter acts: assigning the resolution attribute, and the bus read / bus write
of the bit-field update. -/
inductive Act where
  | setRes : Nat → Act
  | busRead : Nat → Nat → Act
  | busWrite : Nat → List Nat → Act
deriving DecidableEq

/-- Forget the internal attribute assignment, keeping bus transactions. -/
def acts_to_tx : List Act → List Tx
  | [] => []
  | Act.setRes _ :: rest => acts_to_tx rest
  | Act.busRead r l :: rest => Tx.read r l :: acts_to_tx rest
  | Act.busWrite r d :: rest => Tx.write r d :: acts_to_tx rest

/-- `QMC5883L.field_range` setter with its ordered micro-steps: validate,
then assign `resolution` (3000 for the 8G code, 12000 otherwise), then
read-modify-write bits 5:4 of `0x09` as the last action. -/
def field_range_set_acts (s : Driver) (value : Nat) : Driver × Except String Unit × List Act :=
  if value ∉ field_range_values then
    (s, .error "Value must be a valid field range setting", [])
  else
    let r := if value = 1 then 3000 else 12000
    let s1 : Driver := { s with resolution := r }
    ({ s1 with dev := { s1.dev with conf := cbits_set 2 4 s1.dev.conf value } }, .ok (),
     [Act.setRes r, Act.busRead REG_OPERATION_MODE 1,
      Act.busWrite REG_OPERATION_MODE [cbits_set 2 4 s.dev.conf value]])

/-- `QMC5883L.field_range` setter, observed at bus-transaction granularity. -/
def field_range_set (s : Driver) (value : Nat) : Driver × Except String Unit × List Tx :=
  ((field_range_set_acts s value).1, (field_range_set_acts s value).2.1,
   acts_to_tx (field_range_set_acts s value).2.2)

/-- `QMC5883L.output_data_rate` getter: decode the 2-bit field at offset 2
through the four-element name tuple. -/
def output_data_rate_get (s : Driver) : Option String :=
  ["OUTPUT_DATA_RATE_10", "OUTPUT_DATA_RATE_50", "OUTPUT_DATA_RATE_100",
   "OUTPUT_DATA_RATE_200"].get? (cbits_get 2 2 s.dev.conf)

/-- `QMC5883L.output_data_rate` setter: validate, then read-modify-write
bits 3:2 of `0x09`. -/
def output_data_rate_set (s : Driver) (value : Nat) : Driver × Except String Unit × List Tx :=
  if value ∉ data_rate_values then
    (s, .error "Value must be a valid data rate setting", [])
  else
    ({ s with dev := { s.dev with conf := cbits_set 2 2 s.dev.conf value } }, .ok (),
     [Tx.read REG_OPERATION_MODE 1,
      Tx.write REG_OPERATION_MODE [cbits_set 2 2 s.dev.conf value]])

/-- `QMC5883L.mode_control` getter: decode the 2-bit field at offset 0
through the two-element name tuple.  `none` models an IndexError. -/
def mode_control_get (s : Driver) : Option String :=
  ["MODE_STANDBY", "MODE_CONTINUOUS"].get? (cbits_get 2 0 s.dev.conf)

/-- `QMC5883L.mode_control` setter: validate, then read-modify-write
bits 1:0 of `0x09`. -/
def mode_control_set (s : Driver) (value : Nat) : Driver × Except String Unit × List Tx :=
  if value ∉ mode_values then
    (s, .error "Value must be a valid mode setting", [])
  else
    ({ s with dev := { s.dev with conf := cbits_set 2 0 s.dev.conf value } }, .ok (),
     [Tx.read REG_OPERATION_MODE 1,
      Tx.write REG_OPERATION_MODE [cbits_set 2 0 s.dev.conf value]])

/-- `QMC5883L.__init__`: read the 2-byte identity register and fail when it
is not `0xFF`; otherwise write `0x01` to the reset register (two bytes,
little-endian) and apply the four default settings through the public
setters, in source order. -/
def initDriver (d0 : DevState) : Except String Driver × List Tx :=
  if d0.whoami ≠ 0xFF then
    (.error "Failed to find the QMC5883L!", [Tx.read REG_WHOAMI 2])
  else
    let s0 : Driver := { dev := d0, resolution := 0 }
    let r1 := oversample_set s0 OVERSAMPLE_128
    let r2 := field_range_set r1.1 FIELDRANGE_2G
    let r3 := output_data_rate_set r2.1 OUTPUT_DATA_RATE_200
    let r4 := mode_control_set r3.1 MODE_CONTINUOUS
    (.ok r4.1,
     [Tx.read REG_WHOAMI 2, Tx.write REG_SET_RESET [0x01, 0x00]] ++
       r1.2.2 ++ r2.2.2 ++ r3.2.2 ++ r4.2.2)

/-- Whether the n-th read of the status byte shows the data-ready bit
(bit 2 of register `0x06`) set. -/
def readyB (seq : Nat → Nat) (n : Nat) : Bool :=
  cbits_get 1 2 (seq n) == 1

/-- Two bytes, little-endian, decoded as a signed 16-bit integer. -/
def toInt16 (lo hi : Nat) : Int :=
  let v := lo % 256 + 256 * (hi % 256)
  if v < 32768 then (v : Int) else (v : Int) - 65536

/-- A field of a struct format string: `h` is a signed 16-bit value, `B` an
unsigned byte. -/
inductive SField where
  | h : SField
  | B : SField
deriving DecidableEq

/-- Byte size of one struct field. -/
def sfieldSize : SField → Nat
  | .h => 2
  | .B => 1

/-- The measurement layout declared by the driver: `"<hhhBh"`. -/
def measFormat : List SField := [.h, .h, .h, .B, .h]

/-- Modelled from the spec: the multi-byte accessor `RegisterStruct` from
`i2c_helpers.py` (not among the sources) reads the declared total byte
length of its layout string; for `"<hhhBh"` that is this many bytes. -/
def measSize : Nat := (measFormat.map sfieldSize).sum

/-- Modelled from the spec: unpacking the measurement block per `"<hhhBh"`,
little-endian: int16 x, int16 y, int16 z, uint8, int16. -/
def unpackMeasures (bs : List Nat) : Int × Int × Int × Nat × Int :=
  (toInt16 (bs.getD 0 0) (bs.getD 1 0),
   toInt16 (bs.getD 2 0) (bs.getD 3 0),
   toInt16 (bs.getD 4 0) (bs.getD 5 0),
   bs.getD 6 0 % 256,
   toInt16 (bs.getD 7 0) (bs.getD 8 0))

/-- `QMC5883L.magnetic`: poll the data-ready bit until it reads 1 (the n-th
status read returns byte `seq n`), then read the measurement block once,
discard the trailing two fields and return the three axes divided by the
current resolution.  Defined only under the hypothesis that some poll
eventually succeeds, mirroring the unterminated busy-wait. -/
def magnetic (s : Driver) (seq : Nat → Nat) (h : ∃ n, readyB seq n = true) :
    (ℚ × ℚ × ℚ) × List Tx :=
  let k := Nat.find h
  let m := unpackMeasures s.dev.meas
  (((m.1 : ℚ) / (s.resolution : ℚ), (m.2.1 : ℚ) / (s.resolution : ℚ),
    (m.2.2.1 : ℚ) / (s.resolution : ℚ)),
   List.replicate (k + 1) (Tx.read REG_STATUS 1) ++ [Tx.read 0 measSize])

/-- The busy-wait poll of `magnetic`, given a fuel bound: returns the index
of the first successful poll at or after `i`, or `none` when fuel runs out.
The Python loop is this function with no fuel bound at all. -/
def pollFuel (seq : Nat → Nat) : Nat → Nat → Option Nat
  | 0, _ => none
  | fuel + 1, i => if readyB seq i then some i else pollFuel seq fuel (i + 1)

/-- A public configuration operation on the driver. -/
inductive Op where
  | setOversample : Nat → Op
  | setFieldRange : Nat → Op
  | setDataRate : Nat → Op
  | setMode : Nat → Op

/-- Apply one public operation; a rejected value leaves the state unchanged,
as the setters validate before mutating. -/
def applyOp (s : Driver) : Op → Driver
  | .setOversample v => (oversample_set s v).1
  | .setFieldRange v => (field_range_set s v).1
  | .setDataRate v => (output_data_rate_set s v).1
  | .setMode v => (mode_control_set s v).1

/-- Run a sequence of public operations from a starting driver state. -/
def runOps (s : Driver) (ops : List Op) : Driver := ops.foldl applyOp s

/-- The resolution attribute matches the field-range bits currently in the
operation-mode register: 3000 counts/unit for the 8G code, 12000 for 2G. -/
def resInv (s : Driver) : Prop :=
  s.resolution = (if cbits_get 2 4 s.dev.conf = 1 then 3000 else 12000)

theorem cbits_roundtrip_lt : ∀ b < 256, ∀ v < 4, ∀ off ∈ [6, 4, 2, 0],
    cbits_get 2 off (cbits_set 2 off b v) = v ∧ cbits_set 2 off b v < 256 := by
  decide

theorem cbits_frame : ∀ b < 256, ∀ v < 4, ∀ f ∈ [6, 4, 2, 0], ∀ g ∈ [6, 4, 2, 0],
    f ≠ g → cbits_get 2 g (cbits_set 2 f b v) = cbits_get 2 g b := by
  decide

theorem oversample_mem_lt : ∀ v ∈ oversample_values, v < 4 := by decide

theorem field_range_mem_lt : ∀ v ∈ field_range_values, v < 4 := by decide

theorem data_rate_mem_lt : ∀ v ∈ data_rate_values, v < 4 := by decide

theorem mode_mem_lt : ∀ v ∈ mode_values, v < 4 := by decide

theorem oversample_set_ok (s : Driver) (v : Nat) (hv : v ∈ oversample_values) :
    oversample_set s v =
      ({ s with dev := { s.dev with conf := cbits_set 2 6 s.dev.conf v } }, .ok (),
       [Tx.read REG_OPERATION_MODE 1,
        Tx.write REG_OPERATION_MODE [cbits_set 2 6 s.dev.conf v]]) := by
  unfold oversample_set
  rw [if_neg (not_not_intro hv)]

theorem field_range_set_acts_ok (s : Driver) (v : Nat) (hv : v ∈ field_range_values) :
    field_range_set_acts s v =
      ({ dev := { s.dev with conf := cbits_set 2 4 s.dev.conf v },
         resolution := if v = 1 then 3000 else 12000 }, .ok (),
       [Act.setRes (if v = 1 then 3000 else 12000), Act.busRead REG_OPERATION_MODE 1,
        Act.busWrite REG_OPERATION_MODE [cbits_set 2 4 s.dev.conf v]]) := by
  unfold field_range_set_acts
  rw [if_neg (not_not_intro hv)]

theorem field_range_set_ok (s : Driver) (v : Nat) (hv : v ∈ field_range_values) :
    field_range_set s v =
      ({ dev := { s.dev with conf := cbits_set 2 4 s.dev.conf v },
         resolution := if v = 1 then 3000 else 12000 }, .ok (),
       [Tx.read REG_OPERATION_MODE 1,
        Tx.write REG_OPERATION_MODE [cbits_set 2 4 s.dev.conf v]]) := by
  unfold field_range_set
  rw [field_range_set_acts_ok s v hv]
  rfl

theorem output_data_rate_set_ok (s : Driver) (v : Nat) (hv : v ∈ data_rate_values) :
    output_data_rate_set s v =
      ({ s with dev := { s.dev with conf := cbits_set 2 2 s.dev.conf v } }, .ok (),
       [Tx.read REG_OPERATION_MODE 1,
        Tx.write REG_OPERATION_MODE [cbits_set 2 2 s.dev.conf v]]) := by
  unfold output_data_rate_set
  rw [if_neg (not_not_intro hv)]

theorem mode_control_set_ok (s : Driver) (v : Nat) (hv : v ∈ mode_values) :
    mode_control_set s v =
      ({ s with dev := { s.dev with conf := cbits_set 2 0 s.dev.conf v } }, .ok (),
       [Tx.read REG_OPERATION_MODE 1,
        Tx.write REG_OPERATION_MODE [cbits_set 2 0 s.dev.conf v]]) := by
  unfold mode_control_set
  rw [if_neg (not_not_intro hv)]

theorem oversample_round (s : Driver) (hb : s.dev.conf < 256) (v : Nat)
    (hv : v ∈ oversample_values) :
    oversample_get (oversample_set s v).1 =
      ["OVERSAMPLE_512", "OVERSAMPLE_256", "OVERSAMPLE_128", "OVERSAMPLE_64"].get? v := by
  rw [oversample_set_ok s v hv]
  simp [oversample_get,
    (cbits_roundtrip_lt s.dev.conf hb v (oversample_mem_lt v hv) 6 (by decide)).1]

theorem field_range_round (s : Driver) (hb : s.dev.conf < 256) (v : Nat)
    (hv : v ∈ field_range_values) :
    field_range_get (field_range_set s v).1 =
      ["FIELDRANGE_2G", "FIELDRANGE_8G"].get? v := by
  rw [field_range_set_ok s v hv]
  simp [field_range_get,
    (cbits_roundtrip_lt s.dev.conf hb v (field_range_mem_lt v hv) 4 (by decide)).1]

theorem output_data_rate_round (s : Driver) (hb : s.dev.conf < 256) (v : Nat)
    (hv : v ∈ data_rate_values) :
    output_data_rate_get (output_data_rate_set s v).1 =
      ["OUTPUT_DATA_RATE_10", "OUTPUT_DATA_RATE_50", "OUTPUT_DATA_RATE_100",
       "OUTPUT_DATA_RATE_200"].get? v := by
  rw [output_data_rate_set_ok s v hv]
  simp [output_data_rate_get,
    (cbits_roundtrip_lt s.dev.conf hb v (data_rate_mem_lt v hv) 2 (by decide)).1]

theorem mode_control_round (s : Driver) (hb : s.dev.conf < 256) (v : Nat)
    (hv : v ∈ mode_values) :
    mode_control_get (mode_control_set s v).1 =
      ["MODE_STANDBY", "MODE_CONTINUOUS"].get? v := by
  rw [mode_control_set_ok s v hv]
  simp [mode_control_get,
    (cbits_roundtrip_lt s.dev.conf hb v (mode_mem_lt v hv) 0 (by decide)).1]

/-- Claim C1: for each of the four settings and every legal enumerated raw
code, performing set(code) and then get() returns exactly the named value
the code decodes to per the enumeration tables. -/
theorem set_get_round_trip (s : Driver) (hb : s.dev.conf < 256) :
    oversample_get (oversample_set s OVERSAMPLE_64).1 = some "OVERSAMPLE_64" ∧
    oversample_get (oversample_set s OVERSAMPLE_128).1 = some "OVERSAMPLE_128" ∧
    oversample_get (oversample_set s OVERSAMPLE_256).1 = some "OVERSAMPLE_256" ∧
    oversample_get (oversample_set s OVERSAMPLE_512).1 = some "OVERSAMPLE_512" ∧
    field_range_get (field_range_set s FIELDRANGE_2G).1 = some "FIELDRANGE_2G" ∧
    field_range_get (field_range_set s FIELDRANGE_8G).1 = some "FIELDRANGE_8G" ∧
    output_data_rate_get (output_data_rate_set s OUTPUT_DATA_RATE_10).1 =
      some "OUTPUT_DATA_RATE_10" ∧
    output_data_rate_get (output_data_rate_set s OUTPUT_DATA_RATE_50).1 =
      some "OUTPUT_DATA_RATE_50" ∧
    output_data_rate_get (output_data_rate_set s OUTPUT_DATA_RATE_100).1 =
      some "OUTPUT_DATA_RATE_100" ∧
    output_data_rate_get (output_data_rate_set s OUTPUT_DATA_RATE_200).1 =
      some "OUTPUT_DATA_RATE_200" ∧
    mode_control_get (mode_control_set s MODE_STANDBY).1 = some "MODE_STANDBY" ∧
    mode_control_get (mode_control_set s MODE_CONTINUOUS).1 = some "MODE_CONTINUOUS" := by
  refine ⟨?_, ?_, ?_, ?_, ?_, ?_, ?_, ?_, ?_, ?_, ?_, ?_⟩
  · rw [oversample_round s hb OVERSAMPLE_64 (by decide)]; rfl
  · rw [oversample_round s hb OVERSAMPLE_128 (by decide)]; rfl
  · rw [oversample_round s hb OVERSAMPLE_256 (by decide)]; rfl
  · rw [oversample_round s hb OVERSAMPLE_512 (by decide)]; rfl
  · rw [field_range_round s hb FIELDRANGE_2G (by decide)]; rfl
  · rw [field_range_round s hb FIELDRANGE_8G (by decide)]; rfl
  · rw [output_data_rate_round s hb OUTPUT_DATA_RATE_10 (by decide)]; rfl
  · rw [output_data_rate_round s hb OUTPUT_DATA_RATE_50 (by decide)]; rfl
  · rw [output_data_rate_round s hb OUTPUT_DATA_RATE_100 (by decide)]; rfl
  · rw [output_data_rate_round s hb OUTPUT_DATA_RATE_200 (by decide)]; rfl
  · rw [mode_control_round s hb MODE_STANDBY (by decide)]; rfl
  · rw [mode_control_round s hb MODE_CONTINUOUS (by decide)]; rfl

/-- Witness for the round-trip theorem at a concrete driver state. -/
theorem set_get_round_trip_witness :
    oversample_get (oversample_set ⟨⟨0x55, 0xFF, []⟩, 12000⟩ OVERSAMPLE_64).1 =
      some "OVERSAMPLE_64" :=
  (set_get_round_trip ⟨⟨0x55, 0xFF, []⟩, 12000⟩ (by decide)).1

/-- Claim C2: for each setting, set with a value outside its enumeration
fails with the InvalidSetting ValueError, returning the driver (resolution
included) unchanged with no bus transaction issued, so the register bits
are untouched; a legal code does not fail. -/
theorem invalid_set_rejected (s : Driver) (v : Nat) :
    (v ∉ oversample_values →
      oversample_set s v = (s, .error "Value must be a valid oversample setting", [])) ∧
    (v ∈ oversample_values → (oversample_set s v).2.1 = .ok ()) ∧
    (v ∉ field_range_values →
      field_range_set s v = (s, .error "Value must be a valid field range setting", [])) ∧
    (v ∈ field_range_values → (field_range_set s v).2.1 = .ok ()) ∧
    (v ∉ data_rate_values →
      output_data_rate_set s v = (s, .error "Value must be a valid data rate setting", [])) ∧
    (v ∈ data_rate_values → (output_data_rate_set s v).2.1 = .ok ()) ∧
    (v ∉ mode_values →
      mode_control_set s v = (s, .error "Value must be a valid mode setting", [])) ∧
    (v ∈ mode_values → (mode_control_set s v).2.1 = .ok ()) := by
  refine ⟨?_, ?_, ?_, ?_, ?_, ?_, ?_, ?_⟩
  · intro h
    unfold oversample_set
    rw [if_pos h]
  · intro h
    rw [oversample_set_ok s v h]
  · intro h
    unfold field_range_set field_range_set_acts
    rw [if_pos h]
    rfl
  · intro h
    rw [field_range_set_ok s v h]
  · intro h
    unfold output_data_rate_set
    rw [if_pos h]
  · intro h
    rw [output_data_rate_set_ok s v h]
  · intro h
    unfold mode_control_set
    rw [if_pos h]
  · intro h
    rw [mode_control_set_ok s v h]

/-- Witness for the rejection theorem: code 7 is outside every enumeration. -/
theorem invalid_set_rejected_witness :
    oversample_set ⟨⟨0, 0xFF, []⟩, 12000⟩ 7 =
      (⟨⟨0, 0xFF, []⟩, 12000⟩, .error "Value must be a valid oversample setting", []) :=
  (invalid_set_rejected ⟨⟨0, 0xFF, []⟩, 12000⟩ 7).1 (by decide)

/-- Claim C7: for every current value of the shared operation-mode register
byte and every legal 2-bit code, a masked read-modify-write of one sub-field
(offsets 6, 4, 2, 0) leaves the bits of each of the other three co-located
sub-fields exactly unchanged. -/
theorem subfield_write_frame : ∀ b < 256, ∀ v < 4, ∀ f ∈ [6, 4, 2, 0], ∀ g ∈ [6, 4, 2, 0],
    f ≠ g → cbits_get 2 g (cbits_set 2 f b v) = cbits_get 2 g b := by
  decide

/-- Witness for the frame theorem: writing the oversample field (offset 6)
leaves the mode field (offset 0) of byte 0xAB unchanged. -/
theorem subfield_write_frame_witness :
    cbits_get 2 0 (cbits_set 2 6 0xAB 2) = cbits_get 2 0 0xAB :=
  subfield_write_frame 0xAB (by decide) 2 (by decide) 6 (by decide) 0 (by decide) (by decide)

theorem initDriver_ok (d0 : DevState) (hw : d0.whoami = 0xFF) :
    initDriver d0 =
      (.ok { dev := { conf := cbits_set 2 0 (cbits_set 2 2 (cbits_set 2 4
                        (cbits_set 2 6 d0.conf 2) 0) 3) 1,
                      whoami := d0.whoami, meas := d0.meas },
             resolution := 12000 },
       [Tx.read REG_WHOAMI 2, Tx.write REG_SET_RESET [0x01, 0x00],
        Tx.read REG_OPERATION_MODE 1,
        Tx.write REG_OPERATION_MODE [cbits_set 2 6 d0.conf 2],
        Tx.read REG_OPERATION_MODE 1,
        Tx.write REG_OPERATION_MODE [cbits_set 2 4 (cbits_set 2 6 d0.conf 2) 0],
        Tx.read REG_OPERATION_MODE 1,
        Tx.write REG_OPERATION_MODE
          [cbits_set 2 2 (cbits_set 2 4 (cbits_set 2 6 d0.conf 2) 0) 3],
        Tx.read REG_OPERATION_MODE 1,
        Tx.write REG_OPERATION_MODE
          [cbits_set 2 0 (cbits_set 2 2 (cbits_set 2 4 (cbits_set 2 6 d0.conf 2) 0) 3) 1]]) := by
  unfold initDriver
  rw [if_neg (not_not_intro hw)]
  simp [oversample_set, field_range_set, field_range_set_acts, output_data_rate_set,
    mode_control_set, acts_to_tx, oversample_values, field_range_values, data_rate_values,
    mode_values, OVERSAMPLE_64, OVERSAMPLE_128, OVERSAMPLE_256, OVERSAMPLE_512,
    FIELDRANGE_2G, FIELDRANGE_8G, OUTPUT_DATA_RATE_10, OUTPUT_DATA_RATE_50,
    OUTPUT_DATA_RATE_100, OUTPUT_DATA_RATE_200, MODE_STANDBY, MODE_CONTINUOUS]

/-- Claim C6: construction against a device whose 2-byte identity register
at 0x0D does not read 0xFF fails with the DeviceNotFound RuntimeError after
the single identity read, with no write transaction; when the identity check
passes, construction writes 0x01 to the reset register and then applies the
defaults oversample=128, field range=2G, data rate=200Hz, mode=continuous
through the public setters, in that order. -/
theorem construction_checks_identity (d0 : DevState) (hbad : d0.whoami ≠ 0xFF)
    (d1 : DevState) (hgood : d1.whoami = 0xFF) :
    initDriver d0 = (.error "Failed to find the QMC5883L!", [Tx.read REG_WHOAMI 2]) ∧
    (∃ s, initDriver d1 =
      (.ok s,
       [Tx.read REG_WHOAMI 2, Tx.write REG_SET_RESET [0x01, 0x00],
        Tx.read REG_OPERATION_MODE 1,
        Tx.write REG_OPERATION_MODE [cbits_set 2 6 d1.conf OVERSAMPLE_128],
        Tx.read REG_OPERATION_MODE 1,
        Tx.write REG_OPERATION_MODE
          [cbits_set 2 4 (cbits_set 2 6 d1.conf OVERSAMPLE_128) FIELDRANGE_2G],
        Tx.read REG_OPERATION_MODE 1,
        Tx.write REG_OPERATION_MODE
          [cbits_set 2 2 (cbits_set 2 4 (cbits_set 2 6 d1.conf OVERSAMPLE_128)
            FIELDRANGE_2G) OUTPUT_DATA_RATE_200],
        Tx.read REG_OPERATION_MODE 1,
        Tx.write REG_OPERATION_MODE
          [cbits_set 2 0 (cbits_set 2 2 (cbits_set 2 4 (cbits_set 2 6 d1.conf
            OVERSAMPLE_128) FIELDRANGE_2G) OUTPUT_DATA_RATE_200) MODE_CONTINUOUS]]) ∧
      s.resolution = 12000) := by
  constructor
  · unfold initDriver
    rw [if_pos hbad]
  · exact ⟨_, initDriver_ok d1 hgood, rfl⟩

/-- Witness for the construction theorem at two concrete devices, one with a
wrong identity value and one with the expected 0xFF. -/
theorem construction_checks_identity_witness :
    initDriver ⟨0, 0, []⟩ =
      (.error "Failed to find the QMC5883L!", [Tx.read REG_WHOAMI 2]) :=
  (construction_checks_identity ⟨0, 0, []⟩ (by decide) ⟨0, 0xFF, []⟩ (by decide)).1

theorem step_preserves (s : Driver) (hc : s.dev.conf < 256) (hr : resInv s) (op : Op) :
    (applyOp s op).dev.conf < 256 ∧ resInv (applyOp s op) := by
  cases op with
  | setOversample v =>
      by_cases hv : v ∈ oversample_values
      · have hv4 := oversample_mem_lt v hv
        have hlt := (cbits_roundtrip_lt _ hc v hv4 6 (by decide)).2
        have hfr := cbits_frame _ hc v hv4 6 (by decide) 4 (by decide) (by decide)
        unfold resInv at hr ⊢
        simp [applyOp, oversample_set_ok s v hv, hfr, hlt, hr]
      · have he : oversample_set s v =
            (s, .error "Value must be a valid oversample setting", []) := by
          unfold oversample_set
          rw [if_pos hv]
        simp only [applyOp, he]
        exact ⟨hc, hr⟩
  | setFieldRange v =>
      by_cases hv : v ∈ field_range_values
      · have hv4 := field_range_mem_lt v hv
        have hlt := (cbits_roundtrip_lt _ hc v hv4 4 (by decide)).2
        have hrt := (cbits_roundtrip_lt _ hc v hv4 4 (by decide)).1
        have hv01 : v = 0 ∨ v = 1 := by
          simpa [field_range_values, FIELDRANGE_2G, FIELDRANGE_8G] using hv
        unfold resInv
        rcases hv01 with h0 | h1
        · subst h0
          simp [applyOp, field_range_set_ok s 0 hv, hlt, hrt]
        · subst h1
          simp [applyOp, field_range_set_ok s 1 hv, hlt, hrt]
      · have he : field_range_set s v =
            (s, .error "Value must be a valid field range setting", []) := by
          unfold field_range_set field_range_set_acts
          rw [if_pos hv]
          rfl
        simp only [applyOp, he]
        exact ⟨hc, hr⟩
  | setDataRate v =>
      by_cases hv : v ∈ data_rate_values
      · have hv4 := data_rate_mem_lt v hv
        have hlt := (cbits_roundtrip_lt _ hc v hv4 2 (by decide)).2
        have hfr := cbits_frame _ hc v hv4 2 (by decide) 4 (by decide) (by decide)
        unfold resInv at hr ⊢
        simp [applyOp, output_data_rate_set_ok s v hv, hfr, hlt, hr]
      · have he : output_data_rate_set s v =
            (s, .error "Value must be a valid data rate setting", []) := by
          unfold output_data_rate_set
          rw [if_pos hv]
        simp only [applyOp, he]
        exact ⟨hc, hr⟩
  | setMode v =>
      by_cases hv : v ∈ mode_values
      · have hv4 := mode_mem_lt v hv
        have hlt := (cbits_roundtrip_lt _ hc v hv4 0 (by decide)).2
        have hfr := cbits_frame _ hc v hv4 0 (by decide) 4 (by decide) (by decide)
        unfold resInv at hr ⊢
        simp [applyOp, mode_control_set_ok s v hv, hfr, hlt, hr]
      · have he : mode_control_set s v =
            (s, .error "Value must be a valid mode setting", []) := by
          unfold mode_control_set
          rw [if_pos hv]
        simp only [applyOp, he]
        exact ⟨hc, hr⟩

theorem runOps_preserves (s : Driver) (hc : s.dev.conf < 256) (hr : resInv s)
    (ops : List Op) : (runOps s ops).dev.conf < 256 ∧ resInv (runOps s ops) := by
  induction ops generalizing s with
  | nil => exact ⟨hc, hr⟩
  | cons op rest ih =>
      have h := step_preserves s hc hr op
      simpa [runOps, List.foldl_cons] using ih (applyOp s op) h.1 h.2

theorem initDriver_invariant (d0 : DevState) (hc : d0.conf < 256)
    (hw : d0.whoami = 0xFF) :
    ∃ s0, (initDriver d0).1 = .ok s0 ∧ s0.dev.conf < 256 ∧ resInv s0 := by
  have h1 := cbits_roundtrip_lt d0.conf hc 2 (by decide) 6 (by decide)
  have h2 := cbits_roundtrip_lt (cbits_set 2 6 d0.conf 2) h1.2 0 (by decide) 4 (by decide)
  have h3 := cbits_roundtrip_lt (cbits_set 2 4 (cbits_set 2 6 d0.conf 2) 0) h2.2 3
    (by decide) 2 (by decide)
  have h4 := cbits_roundtrip_lt (cbits_set 2 2 (cbits_set 2 4 (cbits_set 2 6 d0.conf 2) 0) 3)
    h3.2 1 (by decide) 0 (by decide)
  have f3 := cbits_frame (cbits_set 2 4 (cbits_set 2 6 d0.conf 2) 0) h2.2 3 (by decide) 2
    (by decide) 4 (by decide) (by decide)
  have f4 := cbits_frame (cbits_set 2 2 (cbits_set 2 4 (cbits_set 2 6 d0.conf 2) 0) 3)
    h3.2 1 (by decide) 0 (by decide) 4 (by decide) (by decide)
  refine ⟨⟨⟨cbits_set 2 0 (cbits_set 2 2 (cbits_set 2 4 (cbits_set 2 6 d0.conf 2) 0) 3) 1,
    d0.whoami, d0.meas⟩, 12000⟩, ?_, h4.2, ?_⟩
  · rw [initDriver_ok d0 hw]
  · unfold resInv
    simp [f4, f3, h2.1]

/-- Claim C3: after construction and any sequence of public configuration
operations (failed sets leaving the state untouched), the resolution scale
factor always matches the field-range bits most recently written: 3000 when
the last written code is 8G, 12000 when it is 2G; and within a successful
field-range set the resolution assignment comes first and the bit-field
register write is the last action. -/
theorem resolution_matches_field_range (d0 : DevState) (hc : d0.conf < 256)
    (hw : d0.whoami = 0xFF) (ops : List Op) :
    (∃ s0, (initDriver d0).1 = .ok s0 ∧ resInv s0 ∧ resInv (runOps s0 ops)) ∧
    (∀ s v, v ∈ field_range_values →
      (field_range_set_acts s v).2.2 =
        [Act.setRes (if v = 1 then 3000 else 12000), Act.busRead REG_OPERATION_MODE 1,
         Act.busWrite REG_OPERATION_MODE [cbits_set 2 4 s.dev.conf v]]) := by
  constructor
  · obtain ⟨s0, hok, hlt, hinv⟩ := initDriver_invariant d0 hc hw
    exact ⟨s0, hok, hinv, (runOps_preserves s0 hlt hinv ops).2⟩
  · intro s v hv
    rw [field_range_set_acts_ok s v hv]

/-- Witness for the resolution-invariant theorem: a concrete construction
followed by one field-range change to 8G. -/
theorem resolution_matches_field_range_witness :
    ∃ s0, (initDriver ⟨0, 0xFF, []⟩).1 = .ok s0 ∧ resInv s0 ∧
      resInv (runOps s0 [Op.setFieldRange 1]) :=
  (resolution_matches_field_range ⟨0, 0xFF, []⟩ (by decide) (by decide)
    [Op.setFieldRange 1]).1

theorem measSize_eq : measSize = 9 := rfl

theorem magnetic_trace (s : Driver) (seq : Nat → Nat) (h : ∃ n, readyB seq n = true) :
    (magnetic s seq h).2 =
      List.replicate (Nat.find h + 1) (Tx.read REG_STATUS 1) ++ [Tx.read 0 measSize] := rfl

theorem magnetic_value (s : Driver) (seq : Nat → Nat) (h : ∃ n, readyB seq n = true) :
    (magnetic s seq h).1 =
      (((unpackMeasures s.dev.meas).1 : ℚ) / (s.resolution : ℚ),
       ((unpackMeasures s.dev.meas).2.1 : ℚ) / (s.resolution : ℚ),
       ((unpackMeasures s.dev.meas).2.2.1 : ℚ) / (s.resolution : ℚ)) := rfl

/-- Claim C4: the magnetic read divides each signed raw axis value by the
current resolution scale factor: by 3000 after the field range was set to
8G, by 12000 after 2G; in particular a raw x of 6000 yields 1/2 physical
units under 2G and 2 under 8G. -/
theorem magnetic_scaling (s : Driver) (seq : Nat → Nat) (h : ∃ n, readyB seq n = true) :
    ((magnetic (field_range_set s FIELDRANGE_8G).1 seq h).1 =
      (((unpackMeasures s.dev.meas).1 : ℚ) / 3000,
       ((unpackMeasures s.dev.meas).2.1 : ℚ) / 3000,
       ((unpackMeasures s.dev.meas).2.2.1 : ℚ) / 3000)) ∧
    ((magnetic (field_range_set s FIELDRANGE_2G).1 seq h).1 =
      (((unpackMeasures s.dev.meas).1 : ℚ) / 12000,
       ((unpackMeasures s.dev.meas).2.1 : ℚ) / 12000,
       ((unpackMeasures s.dev.meas).2.2.1 : ℚ) / 12000)) ∧
    (magnetic (field_range_set ⟨⟨0, 0xFF, [0x70, 0x17, 0, 0, 0, 0, 0, 0, 0]⟩, 0⟩
        FIELDRANGE_2G).1 seq h).1.1 = 1 / 2 ∧
    (magnetic (field_range_set ⟨⟨0, 0xFF, [0x70, 0x17, 0, 0, 0, 0, 0, 0, 0]⟩, 0⟩
        FIELDRANGE_8G).1 seq h).1.1 = 2 := by
  refine ⟨?_, ?_, ?_, ?_⟩
  · rw [field_range_set_ok s FIELDRANGE_8G (by decide), magnetic_value]
    norm_num [FIELDRANGE_8G]
  · rw [field_range_set_ok s FIELDRANGE_2G (by decide), magnetic_value]
    norm_num [FIELDRANGE_2G]
  · rw [field_range_set_ok _ FIELDRANGE_2G (by decide), magnetic_value]
    norm_num [FIELDRANGE_2G, unpackMeasures, toInt16]
  · rw [field_range_set_ok _ FIELDRANGE_8G (by decide), magnetic_value]
    norm_num [FIELDRANGE_8G, unpackMeasures, toInt16]

/-- Witness for the scaling theorem: a device always reporting ready whose
raw x axis reads 6000, under the 2G range. -/
theorem magnetic_scaling_witness :
    (magnetic (field_range_set ⟨⟨0, 0xFF, [0x70, 0x17, 0, 0, 0, 0, 0, 0, 0]⟩, 0⟩
        FIELDRANGE_2G).1 (fun _ => 4) ⟨0, rfl⟩).1.1 = 1 / 2 :=
  (magnetic_scaling ⟨⟨0, 0xFF, [0x70, 0x17, 0, 0, 0, 0, 0, 0, 0]⟩, 0⟩ (fun _ => 4)
    ⟨0, rfl⟩).2.2.1

/-- Counterexample to claim C5 as stated: the declared measurement layout
"<hhhBh" totals nine bytes (2+2+2+1+2), not seven, so the single
measurement transaction at register 0x00 is a 9-byte read and no 7-byte
read ever appears in the trace. -/
theorem measurement_block_not_seven_bytes :
    measSize = 9 ∧
    Tx.read 0 7 ∉ (magnetic ⟨⟨0, 0xFF, []⟩, 12000⟩ (fun _ => 4) ⟨0, rfl⟩).2 ∧
    Tx.read 0 9 ∈ (magnetic ⟨⟨0, 0xFF, []⟩, 12000⟩ (fun _ => 4) ⟨0, rfl⟩).2 := by
  have hk : Nat.find (⟨0, rfl⟩ : ∃ n, readyB (fun _ => 4) n = true) = 0 := by
    rw [Nat.find_eq_zero]
    rfl
  refine ⟨rfl, ?_, ?_⟩
  · rw [magnetic_trace, hk]
    decide
  · rw [magnetic_trace, hk]
    decide

/-- Claim C5 (amended): once the data-ready bit has been read as 1, the
magnetic read issues exactly one measurement transaction — a 9-byte read at
register 0x00, decoded little-endian as int16 x, int16 y, int16 z, uint8,
int16 — as the last bus action, every earlier action being a 1-byte status
read, and returns only the three scaled axis values, discarding the two
trailing non-axis fields. -/
theorem measurement_read_once (s : Driver) (seq : Nat → Nat)
    (h : ∃ n, readyB seq n = true) :
    ((magnetic s seq h).2).count (Tx.read 0 9) = 1 ∧
    ((magnetic s seq h).2).getLast? = some (Tx.read 0 9) ∧
    (∀ i < (magnetic s seq h).2.length - 1,
      ((magnetic s seq h).2).get? i = some (Tx.read REG_STATUS 1)) ∧
    (magnetic s seq h).1 =
      (((unpackMeasures s.dev.meas).1 : ℚ) / (s.resolution : ℚ),
       ((unpackMeasures s.dev.meas).2.1 : ℚ) / (s.resolution : ℚ),
       ((unpackMeasures s.dev.meas).2.2.1 : ℚ) / (s.resolution : ℚ)) := by
  rw [magnetic_trace, measSize_eq]
  refine ⟨?_, ?_, ?_, magnetic_value s seq h⟩
  · simp [List.count_append, List.count_replicate, List.count_singleton, REG_STATUS]
  · simp [List.getLast?_concat]
  · intro i hi
    have hi' : i < Nat.find h + 1 := by simpa using hi
    rw [List.get?_append (by simpa using hi'),
      List.get?_eq_get (by simpa using hi')]
    simp

/-- Witness for the amended measurement theorem: a device that reports ready
on the first poll. -/
theorem measurement_read_once_witness :
    ((magnetic ⟨⟨0, 0xFF, []⟩, 12000⟩ (fun _ => 4) ⟨0, rfl⟩).2).count (Tx.read 0 9) = 1 :=
  (measurement_read_once ⟨⟨0, 0xFF, []⟩, 12000⟩ (fun _ => 4) ⟨0, rfl⟩).1

/-- Claim C8: the magnetic read never issues the measurement-block read
while the most recent status read was not-ready: any measurement read in
the trace sits immediately after the status read whose polled byte had the
ready bit set, every earlier poll having read not-ready. -/
theorem no_measure_read_while_not_ready (s : Driver) (seq : Nat → Nat)
    (h : ∃ n, readyB seq n = true) :
    ∀ i, ((magnetic s seq h).2).get? i = some (Tx.read 0 measSize) →
      i = Nat.find h + 1 ∧
      ((magnetic s seq h).2).get? (Nat.find h) = some (Tx.read REG_STATUS 1) ∧
      readyB seq (Nat.find h) = true ∧
      ∀ j < Nat.find h, readyB seq j = false := by
  intro i hi
  rw [magnetic_trace] at hi
  have hieq : i = Nat.find h + 1 := by
    rcases lt_trichotomy i (Nat.find h + 1) with hlt | heq | hgt
    · exfalso
      rw [List.get?_append (by simpa using hlt),
        List.get?_eq_get (by simpa using hlt)] at hi
      simp [REG_STATUS, measSize, measFormat, sfieldSize] at hi
    · exact heq
    · exfalso
      rw [List.get?_eq_none.mpr (by simp; omega)] at hi
      exact Option.noConfusion hi
  refine ⟨hieq, ?_, Nat.find_spec h, fun j hj => by simpa using Nat.find_min h hj⟩
  rw [magnetic_trace,
    List.get?_append (by simp),
    List.get?_eq_get (by simp)]
  simp

/-- Witness for the poll-before-read theorem: with a device ready at once,
the status read preceding the measurement read indeed polled ready. -/
theorem no_measure_read_while_not_ready_witness :
    ((magnetic ⟨⟨0, 0xFF, []⟩, 12000⟩ (fun _ => 4) ⟨0, rfl⟩).2).get?
        (Nat.find (⟨0, rfl⟩ : ∃ n, readyB (fun _ => 4) n = true)) =
      some (Tx.read REG_STATUS 1) ∧
    readyB (fun _ => 4) (Nat.find (⟨0, rfl⟩ : ∃ n, readyB (fun _ => 4) n = true)) = true := by
  have h := no_measure_read_while_not_ready ⟨⟨0, 0xFF, []⟩, 12000⟩ (fun _ => 4) ⟨0, rfl⟩
    (Nat.find (⟨0, rfl⟩ : ∃ n, readyB (fun _ => 4) n = true) + 1)
    (by rw [magnetic_trace, List.get?_append_right (by simp)]; simp)
  exact ⟨h.2.1, h.2.2.1⟩

/-- Claim C9: the busy-wait poll has no timeout: when the k-th status read
is the first to show ready, the magnetic read performs exactly k+1 status
reads and returns; when the device never asserts readiness the loop body
never exits, yielding nothing for every finite fuel bound. -/
theorem poll_has_no_timeout (seq1 : Nat → Nat) (k : Nat) (hk : readyB seq1 k = true)
    (hmin : ∀ j < k, readyB seq1 j = false) (s : Driver)
    (seq2 : Nat → Nat) (hnever : ∀ n, readyB seq2 n = false) :
    ((magnetic s seq1 ⟨k, hk⟩).2).count (Tx.read REG_STATUS 1) = k + 1 ∧
    (∀ fuel i, pollFuel seq2 fuel i = none) := by
  constructor
  · have hfind : Nat.find (⟨k, hk⟩ : ∃ n, readyB seq1 n = true) = k := by
      rw [Nat.find_eq_iff]
      exact ⟨hk, fun j hj => by simp [hmin j hj]⟩
    rw [magnetic_trace, hfind]
    simp [List.count_append, List.count_replicate, List.count_singleton,
      REG_STATUS, measSize, measFormat, sfieldSize]
  · intro fuel
    induction fuel with
    | zero => intro i; rfl
    | succ n ih =>
        intro i
        simp [pollFuel, hnever i]
        exact ih (i + 1)

/-- Witness for the no-timeout theorem: readiness first appears on the
third poll of one device, and never on another. -/
theorem poll_has_no_timeout_witness :
    ((magnetic ⟨⟨0, 0xFF, []⟩, 12000⟩ (fun n => if n = 2 then 4 else 0)
        ⟨2, by decide⟩).2).count (Tx.read REG_STATUS 1) = 2 + 1 ∧
    (∀ fuel i, pollFuel (fun _ => 0) fuel i = none) :=
  poll_has_no_timeout (fun n => if n = 2 then 4 else 0) 2 (by decide) (by decide)
    ⟨⟨0, 0xFF, []⟩, 12000⟩ (fun _ => 0) (fun _ => by simp [readyB, cbits_get])

/-- Claim C10: the field-range and mode getters index 2-element name tuples
with the raw 2-bit hardware field, so a register byte whose field reads
0b10 or 0b11 makes them fail with an index-out-of-range error (modelled as
`none`) instead of returning a name, while the 4-element oversample and
data-rate getters return a name for every possible 2-bit value. -/
theorem two_element_getters_can_fail (b w r : Nat) (ms : List Nat) :
    (2 ≤ cbits_get 2 4 b → field_range_get ⟨⟨b, w, ms⟩, r⟩ = none) ∧
    (2 ≤ cbits_get 2 0 b → mode_control_get ⟨⟨b, w, ms⟩, r⟩ = none) ∧
    (∃ o, oversample_get ⟨⟨b, w, ms⟩, r⟩ = some o) ∧
    (∃ o, output_data_rate_get ⟨⟨b, w, ms⟩, r⟩ = some o) := by
  have hlt6 : cbits_get 2 6 b < 4 := Nat.mod_lt _ (by norm_num)
  have hlt2 : cbits_get 2 2 b < 4 := Nat.mod_lt _ (by norm_num)
  refine ⟨?_, ?_, ?_, ?_⟩
  · intro hge
    unfold field_range_get
    exact List.get?_eq_none.mpr (by simpa using hge)
  · intro hge
    unfold mode_control_get
    exact List.get?_eq_none.mpr (by simpa using hge)
  · exact ⟨_, List.get?_eq_get (by simpa using hlt6)⟩
  · exact ⟨_, List.get?_eq_get (by simpa using hlt2)⟩

/-- Witness for the getter theorem at byte 0x23, whose field-range bits read
0b10 and whose mode bits read 0b11. -/
theorem two_element_getters_can_fail_witness :
    field_range_get ⟨⟨0x23, 0xFF, []⟩, 12000⟩ = none ∧
    mode_control_get ⟨⟨0x23, 0xFF, []⟩, 12000⟩ = none :=
  ⟨(two_element_getters_can_fail 0x23 0xFF 12000 []).1 (by decide),
   (two_element_getters_can_fail 0x23 0xFF 12000 []).2.1 (by decide)⟩

end QMC5883L
